import Mathlib

/-!
Verification of the dicom-info repository's core logic against its design
specification.  The Python sources are shallowly embedded: pydicom datasets
become a record of the metadata fields the code reads, pixel arrays are
represented by their shape (the values are never interpreted by the code),
the filesystem plus DICOM decoder collaborator becomes a function from paths
to `Except` results, and functions that print or render return their output
as data.
-/

namespace DicomInfo

/-- A pixel array is opaque to the code except for its shape
(`pixel_array.shape` in numpy), so it is embedded as its shape alone. -/
structure PixelArray where
  shape : List Nat
deriving DecidableEq

/-- The slice of a pydicom dataset that the code reads: the optional
`SamplesPerPixel` and `NumberOfFrames` attributes (read with `getattr`
defaults), the optional `pixel_array` (tested with `hasattr`), and the
full metadata dump produced by `str(dcm)`. -/
structure Dataset where
  SamplesPerPixel : Option Nat
  NumberOfFrames : Option Nat
  pixel_array : Option PixelArray
  dump : String
deriving DecidableEq

/-- Embeds `viewer._get_image_type`: classify a dataset's pixel array into
one of the display-category strings used by the code.  The source reads
`samples_per_pixel = getattr(dcm, "SamplesPerPixel", 1)`; the branch on
`pixel_array.shape[2] in (3, 4)` is guarded by the rank-3 test, so the
index-2 access is total here via a default.  The `logger.warning` calls are
side channels with no effect on the returned category. -/
def _get_image_type (dcm : Dataset) (pixel_array : PixelArray) : String :=
  let samples_per_pixel := dcm.SamplesPerPixel.getD 1
  if samples_per_pixel > 1 then
    if pixel_array.shape.length = 3 ∧
        (pixel_array.shape.getD 2 0 = 3 ∨ pixel_array.shape.getD 2 0 = 4) then
      "2d_rgb"
    else
      "unsupported"
  else if pixel_array.shape.length = 2 then
    "2d_gray"
  else if pixel_array.shape.length = 3 then
    "3d_volume"
  else
    "unsupported"

/-- The specification's enumerated image categories (spec section 3). -/
inductive ImageCategory where
  | TwoDGray
  | TwoDColor
  | VolumeOrMultiFrame
  | Unsupported
deriving DecidableEq

/-- Modelled from the spec's words (section 4.3), for comparison with the
code's `_get_image_type`: with `samplesPerPixel` defaulted to 1 when absent,
`samplesPerPixel > 1` requires rank 3 with last dimension 3 or 4 for
`TwoDColor`, else rank 2 is `TwoDGray`, rank 3 is `VolumeOrMultiFrame`
(regardless of any declared frame count), and anything else `Unsupported`. -/
def classify_spec (spp : Nat) (shape : List Nat) : ImageCategory :=
  if spp > 1 then
    if shape.length = 3 ∧ (shape.getLastD 0 = 3 ∨ shape.getLastD 0 = 4) then
      ImageCategory.TwoDColor
    else
      ImageCategory.Unsupported
  else if shape.length = 2 then
    ImageCategory.TwoDGray
  else if shape.length = 3 then
    ImageCategory.VolumeOrMultiFrame
  else
    ImageCategory.Unsupported

/-- The correspondence between the code's category strings and the spec's
category names. -/
def categoryOf : String → Option ImageCategory
  | "2d_gray" => some ImageCategory.TwoDGray
  | "2d_rgb" => some ImageCategory.TwoDColor
  | "3d_volume" => some ImageCategory.VolumeOrMultiFrame
  | "unsupported" => some ImageCategory.Unsupported
  | _ => none

/-- The code string denoting each spec category. -/
def catString : ImageCategory → String
  | ImageCategory.TwoDGray => "2d_gray"
  | ImageCategory.TwoDColor => "2d_rgb"
  | ImageCategory.VolumeOrMultiFrame => "3d_volume"
  | ImageCategory.Unsupported => "unsupported"

lemma getLastD_eq_getD_two {l : List Nat} (h : l.length = 3) :
    l.getLastD 0 = l.getD 2 0 := by
  obtain ⟨a, b, c, rfl⟩ := List.length_eq_three.mp h
  rfl

lemma categoryOf_catString (c : ImageCategory) : categoryOf (catString c) = some c := by
  cases c <;> rfl

lemma code_matches_spec (dcm : Dataset) (pa : PixelArray) :
    _get_image_type dcm pa =
      catString (classify_spec (dcm.SamplesPerPixel.getD 1) pa.shape) := by
  have hA : (pa.shape.length = 3 ∧
        (pa.shape.getLastD 0 = 3 ∨ pa.shape.getLastD 0 = 4)) ↔
      (pa.shape.length = 3 ∧
        (pa.shape.getD 2 0 = 3 ∨ pa.shape.getD 2 0 = 4)) := by
    constructor
    · rintro ⟨h3, h⟩
      rw [getLastD_eq_getD_two h3] at h
      exact ⟨h3, h⟩
    · rintro ⟨h3, h⟩
      rw [← getLastD_eq_getD_two h3] at h
      exact ⟨h3, h⟩
  unfold _get_image_type classify_spec
  simp only [apply_ite catString, hA]
  simp only [catString]

/-- C1: the classifier follows exactly the precedence fixed by the spec:
with `SamplesPerPixel` defaulted to 1 when absent, `samplesPerPixel > 1`
yields `TwoDColor` exactly for rank-3 arrays with last dimension 3 or 4 and
`Unsupported` otherwise; else rank 2 yields `TwoDGray`; else rank 3 yields
`VolumeOrMultiFrame` even when a declared `NumberOfFrames` disagrees with
the leading dimension (the classifier's result never depends on
`NumberOfFrames`); and the spec's six concrete vectors hold. -/
theorem c1_classifier_matches_spec :
    (∀ (dcm : Dataset) (pa : PixelArray),
      categoryOf (_get_image_type dcm pa) =
        some (classify_spec (dcm.SamplesPerPixel.getD 1) pa.shape))
    ∧ categoryOf (_get_image_type ⟨some 1, none, none, ""⟩ ⟨[256, 256]⟩) =
        some ImageCategory.TwoDGray
    ∧ categoryOf (_get_image_type ⟨some 3, none, none, ""⟩ ⟨[256, 256, 3]⟩) =
        some ImageCategory.TwoDColor
    ∧ categoryOf (_get_image_type ⟨some 4, none, none, ""⟩ ⟨[256, 256, 4]⟩) =
        some ImageCategory.TwoDColor
    ∧ categoryOf (_get_image_type ⟨some 3, none, none, ""⟩ ⟨[256, 256]⟩) =
        some ImageCategory.Unsupported
    ∧ categoryOf (_get_image_type ⟨some 1, none, none, ""⟩ ⟨[10, 256, 256]⟩) =
        some ImageCategory.VolumeOrMultiFrame
    ∧ categoryOf (_get_image_type ⟨some 1, some 15, none, ""⟩ ⟨[10, 256, 256]⟩) =
        some ImageCategory.VolumeOrMultiFrame
    ∧ categoryOf (_get_image_type ⟨some 1, none, none, ""⟩ ⟨[10, 10, 256, 256]⟩) =
        some ImageCategory.Unsupported := by
  refine ⟨?_, rfl, rfl, rfl, rfl, rfl, rfl, rfl⟩
  intro dcm pa
  rw [code_matches_spec, categoryOf_catString]

/-! ## File loading (`core.read_dicom_files`, `utils.load_dicom_files`)

The filesystem together with the pydicom decoder collaborator is embedded as
a function `fs : String → Except String Dataset`: `fs path` is `.ok` with
the decoded dataset, or `.error` with the message of the
`FileNotFoundError` or `InvalidDicomError` the decode raises. -/

/-- Embeds the list comprehension over `pydicom.dcmread`: files are read one
at a time in input order, and the first raised error propagates, abandoning
the rest of the batch. -/
def dcmread_all (fs : String → Except String Dataset) :
    List String → Except String (List Dataset)
  | [] => Except.ok []
  | f :: rest =>
    match fs f with
    | Except.error e => Except.error e
    | Except.ok d =>
      match dcmread_all fs rest with
      | Except.error e => Except.error e
      | Except.ok ds => Except.ok (d :: ds)

/-- The reads the batch actually attempts: in input order, up to and
including the first failing path (the comprehension stops there). -/
def readsAttempted (fs : String → Except String Dataset) :
    List String → List String
  | [] => []
  | f :: rest =>
    match fs f with
    | Except.error _ => [f]
    | Except.ok _ => f :: readsAttempted fs rest

/-- Embeds `core.read_dicom_files`: the comprehension wrapped in
try/except, re-raising `DicomReadError` with the fixed message prefix. -/
def read_dicom_files (fs : String → Except String Dataset)
    (files : List String) : Except String (List Dataset) :=
  match dcmread_all fs files with
  | Except.error e => Except.error ("Files could not be read due to " ++ e)
  | Except.ok ds => Except.ok ds

/-- Embeds `utils.load_dicom_files`; its body in the source is identical to
`core.read_dicom_files` (same comprehension, same except clause, same
message). -/
def load_dicom_files (fs : String → Except String Dataset)
    (files : List String) : Except String (List Dataset) :=
  read_dicom_files fs files

/-- The dataset a successful read of `f` yields (placeholder on the error
paths, which the lemmas never reach). -/
def dcmOf (fs : String → Except String Dataset) (f : String) : Dataset :=
  match fs f with
  | Except.ok d => d
  | Except.error _ => ⟨none, none, none, ""⟩

/-! ## Metadata printing (`core.print_stats`) -/

/-- Embeds `core.print_stats`: read all files, then for each file in input
order print the banner line followed by the dataset dump
(`print(banner, dcm, sep="\n")`).  Each list element is one file's chunk
of standard output; an error result means the read raised before any
printing happened. -/
def print_stats (fs : String → Except String Dataset)
    (files : List String) : Except String (List String) :=
  match read_dicom_files fs files with
  | Except.error e => Except.error e
  | Except.ok dcms =>
    Except.ok ((files.zip dcms).map
      (fun fd => "***** " ++ fd.1 ++ " *****" ++ "\n" ++ fd.2.dump))

/-- What `print_stats` actually writes to standard output: nothing at all
when the read raises. -/
def print_stats_lines (fs : String → Except String Dataset)
    (files : List String) : List String :=
  match print_stats fs files with
  | Except.ok ls => ls
  | Except.error _ => []

/-! ## Grid layout (`viewer.display_images`, lines computing the grid) -/

/-- Embeds `int(num_images ** 0.5)`.  The float square root truncated to
int agrees with the integer square root for every feasible image count
(they only drift apart near 2 to the power 52). -/
def int_sqrt (num_images : Nat) : Int :=
  (Nat.sqrt num_images : Int)

/-- Embeds `max_cols = int(num_images ** 0.5) if max_cols is None else
max_cols`. -/
def grid_max_cols (num_images : Nat) (max_cols : Option Int) : Int :=
  match max_cols with
  | none => int_sqrt num_images
  | some m => m

/-- Embeds `cols = min(num_images, max_cols)`. -/
def grid_cols (num_images : Nat) (max_cols : Option Int) : Int :=
  min (num_images : Int) (grid_max_cols num_images max_cols)

/-- Embeds `rows = (num_images - 1) // cols + 1`; Python `//` is floor
division, `Int.fdiv`. -/
def grid_rows (num_images : Nat) (max_cols : Option Int) : Int :=
  ((num_images : Int) - 1).fdiv (grid_cols num_images max_cols) + 1

/-! ## Rendering (`viewer.display_images`, per-image loop) -/

/-- Embeds `pathlib.Path(filepath).name`: the final path component. -/
def path_name (filepath : String) : String :=
  (filepath.splitOn "/").getLastD ""

/-- Python tuple repr of a numpy shape, as interpolated into the
unsupported-dimensions warning. -/
def shapeRepr (shape : List Nat) : String :=
  if shape.length = 1 then
    "(" ++ String.intercalate ", " (shape.map toString) ++ ",)"
  else
    "(" ++ String.intercalate ", " (shape.map toString) ++ ")"

/-- What one grid cell of the figure ends up holding: a static grayscale
image with colorbar, a static color image, a slider-navigable volume, or
nothing but a logged warning for unsupported dimensionality. -/
inductive CellRender where
  | gray (title : String)
  | rgb (title : String)
  | volume (title : String) (sliderMax : Int)
  | skipped (warning : String)
deriving DecidableEq

/-- Embeds the body of the per-image loop of `viewer.display_images`:
dispatch on `_get_image_type`, producing the rendered cell (titles as in
the source; volumes start at slice 0 with slider bounds
`[0, shape[0] - 1]`), or the logged warning for unsupported shapes. -/
def render_cell (filepath : String) (dcm : Dataset) (pa : PixelArray) :
    CellRender :=
  let filename := path_name filepath
  let image_type := _get_image_type dcm pa
  if image_type = "2d_gray" then
    CellRender.gray filename
  else if image_type = "2d_rgb" then
    CellRender.rgb filename
  else if image_type = "3d_volume" then
    CellRender.volume (filename ++ "\nSlice 1/" ++ toString (pa.shape.headD 0))
      ((pa.shape.headD 0 : Int) - 1)
  else
    CellRender.skipped
      (filename ++ " has unsupported dimensions: " ++ shapeRepr pa.shape)

/-- The two fatal errors `viewer.display_images` can raise. -/
inductive DisplayError where
  | readError (msg : String)
  | noPixelData (msg : String)
deriving DecidableEq

/-- The message `str(err)` carries, as printed by the CLI handler. -/
def DisplayError.message : DisplayError → String
  | DisplayError.readError m => m
  | DisplayError.noPixelData m => m

/-- The figure `display_images` builds and shows: the grid dimensions and
one cell per file with pixel data, in input order. -/
structure FigureOut where
  rows : Int
  cols : Int
  cells : List CellRender
deriving DecidableEq

/-- Embeds `viewer.display_images`: load every file (read failures abort
first), keep the files whose dataset has pixel data, raise
`NoPixelDataError` when none remain, otherwise build the grid and render
each image into its cell.  A successful result is the shown figure; an
error result means the function raised before creating any figure,
subplot, or image. -/
def display_images (fs : String → Except String Dataset)
    (files : List String) (max_cols : Option Int) :
    Except DisplayError FigureOut :=
  match load_dicom_files fs files with
  | Except.error e => Except.error (DisplayError.readError e)
  | Except.ok dcms =>
    let files_with_pixels :=
      (files.zip dcms).filter (fun fd => fd.2.pixel_array.isSome)
    if files_with_pixels.isEmpty then
      Except.error
        (DisplayError.noPixelData "No DICOM files with pixel data found.")
    else
      let num_images := files_with_pixels.length
      Except.ok
        { rows := grid_rows num_images max_cols
          cols := grid_cols num_images max_cols
          cells := files_with_pixels.map
            (fun fd => render_cell fd.1 fd.2 (fd.2.pixel_array.getD ⟨[]⟩)) }

/-- The cells actually rendered: none at all when `display_images`
raises. -/
def rendered_cells (r : Except DisplayError FigureOut) : List CellRender :=
  match r with
  | Except.ok fig => fig.cells
  | Except.error _ => []

/-! ## Lemmas about the batch read -/

lemma dcmread_all_ok (fs : String → Except String Dataset) :
    ∀ files : List String, (∀ f ∈ files, ∃ d, fs f = Except.ok d) →
      dcmread_all fs files = Except.ok (files.map (dcmOf fs)) := by
  intro files
  induction files with
  | nil => intro _; rfl
  | cons f rest ih =>
    intro h
    obtain ⟨d, hd⟩ := h f (by simp)
    have hrest := ih (fun g hg => h g (by simp [hg]))
    simp [dcmread_all, hd, hrest, dcmOf]

lemma readsAttempted_ok (fs : String → Except String Dataset) :
    ∀ files : List String, (∀ f ∈ files, ∃ d, fs f = Except.ok d) →
      readsAttempted fs files = files := by
  intro files
  induction files with
  | nil => intro _; rfl
  | cons f rest ih =>
    intro h
    obtain ⟨d, hd⟩ := h f (by simp)
    have hrest := ih (fun g hg => h g (by simp [hg]))
    simp [readsAttempted, hd, hrest]

lemma dcmread_all_err (fs : String → Except String Dataset) (bad e : String)
    (hbad : fs bad = Except.error e) :
    ∀ (pre post : List String), (∀ f ∈ pre, ∃ d, fs f = Except.ok d) →
      dcmread_all fs (pre ++ bad :: post) = Except.error e ∧
      readsAttempted fs (pre ++ bad :: post) = pre ++ [bad] := by
  intro pre
  induction pre with
  | nil =>
    intro post _
    constructor
    · simp [dcmread_all, hbad]
    · simp [readsAttempted, hbad]
  | cons g pre ih =>
    intro post h
    obtain ⟨d, hd⟩ := h g (by simp)
    have hrest := ih post (fun x hx => h x (by simp [hx]))
    constructor
    · simp [dcmread_all, hd, hrest.1]
    · simp [readsAttempted, hd, hrest.2]

lemma dcmread_all_err_of_mem (fs : String → Except String Dataset) :
    ∀ files : List String, (∃ f ∈ files, ∃ e, fs f = Except.error e) →
      ∃ e, dcmread_all fs files = Except.error e := by
  intro files
  induction files with
  | nil => rintro ⟨f, hf, _⟩; simp at hf
  | cons g rest ih =>
    rintro ⟨f, hf, e, he⟩
    cases hfs : fs g with
    | error e2 => exact ⟨e2, by simp [dcmread_all, hfs]⟩
    | ok d =>
      have hfrest : f ∈ rest := by
        rcases List.mem_cons.mp hf with h | h
        · subst h; rw [hfs] at he; simp at he
        · exact h
      obtain ⟨e3, h3⟩ := ih ⟨f, hfrest, e, he⟩
      exact ⟨e3, by simp [dcmread_all, hfs, h3]⟩

lemma zip_self_map {α β : Type} (g : α → β) :
    ∀ l : List α, l.zip (l.map g) = l.map (fun a => (a, g a)) := by
  intro l
  induction l with
  | nil => rfl
  | cons a t ih => simp [ih]

lemma read_dicom_files_ok (fs : String → Except String Dataset)
    (files : List String) (h : ∀ f ∈ files, ∃ d, fs f = Except.ok d) :
    read_dicom_files fs files = Except.ok (files.map (dcmOf fs)) := by
  unfold read_dicom_files
  rw [dcmread_all_ok fs files h]

/-- C3: a batch containing an unreadable path is all-or-nothing, for
`print_stats` and `display_images` alike: both raise `DicomReadError`
carrying the wrapping message, `print_stats` prints nothing, no cell is
rendered, and the sequential read stops at the first failing path, reading
nothing after it. -/
theorem c3_read_all_or_nothing (fs : String → Except String Dataset)
    (mc : Option Int) (pre post : List String) (bad e : String)
    (hpre : ∀ f ∈ pre, ∃ d, fs f = Except.ok d)
    (hbad : fs bad = Except.error e) :
    print_stats fs (pre ++ bad :: post) =
      Except.error ("Files could not be read due to " ++ e)
    ∧ print_stats_lines fs (pre ++ bad :: post) = []
    ∧ display_images fs (pre ++ bad :: post) mc =
      Except.error
        (DisplayError.readError ("Files could not be read due to " ++ e))
    ∧ rendered_cells (display_images fs (pre ++ bad :: post) mc) = []
    ∧ readsAttempted fs (pre ++ bad :: post) = pre ++ [bad] := by
  obtain ⟨hall, hreads⟩ := dcmread_all_err fs bad e hbad pre post hpre
  have hr : read_dicom_files fs (pre ++ bad :: post) =
      Except.error ("Files could not be read due to " ++ e) := by
    unfold read_dicom_files
    rw [hall]
  have hd : display_images fs (pre ++ bad :: post) mc =
      Except.error
        (DisplayError.readError ("Files could not be read due to " ++ e)) := by
    unfold display_images load_dicom_files
    rw [hr]
  have hp : print_stats fs (pre ++ bad :: post) =
      Except.error ("Files could not be read due to " ++ e) := by
    unfold print_stats
    rw [hr]
  refine ⟨hp, ?_, hd, ?_, hreads⟩
  · unfold print_stats_lines
    rw [hp]
  · unfold rendered_cells
    rw [hd]

def dsPix : Dataset := ⟨some 1, none, some ⟨[256, 256]⟩, "PatientName: X"⟩

def dsNoPix : Dataset := ⟨some 1, none, none, "PatientName: Y"⟩

def fsAllOk : String → Except String Dataset := fun _ => Except.ok dsPix

def fsNoPix : String → Except String Dataset := fun _ => Except.ok dsNoPix

def fsOneBad : String → Except String Dataset := fun f =>
  if f = "bad.dcm" then Except.error "No such file" else Except.ok dsPix

theorem c3_read_all_or_nothing_witness :
    readsAttempted fsOneBad ["a.dcm", "bad.dcm", "c.dcm"] =
      ["a.dcm", "bad.dcm"] :=
  (c3_read_all_or_nothing fsOneBad none ["a.dcm"] ["c.dcm"] "bad.dcm"
    "No such file"
    (by
      intro f hf
      simp only [List.mem_singleton] at hf
      subst hf
      exact ⟨dsPix, by simp [fsOneBad]⟩)
    (by simp [fsOneBad])).2.2.2.2

/-- C4: on a non-empty batch where every file decodes, `print_stats`
prints exactly one banner-plus-dump chunk per file, in input order, with
the fixed five-asterisk delimiter around the path, and the output is a
pure function of the files, so repeated invocation is byte-identical. -/
theorem c4_print_stats_banners (fs : String → Except String Dataset)
    (files : List String) (_hne : files ≠ [])
    (hok : ∀ f ∈ files, ∃ d, fs f = Except.ok d) :
    print_stats fs files =
      Except.ok (files.map
        (fun f => "***** " ++ f ++ " *****" ++ "\n" ++ (dcmOf fs f).dump))
    ∧ (print_stats_lines fs files).length = files.length
    ∧ print_stats fs files = print_stats fs files := by
  have hr := read_dicom_files_ok fs files hok
  have hp : print_stats fs files =
      Except.ok (files.map
        (fun f => "***** " ++ f ++ " *****" ++ "\n" ++ (dcmOf fs f).dump)) := by
    unfold print_stats
    rw [hr]
    simp [zip_self_map, List.map_map, Function.comp]
  refine ⟨hp, ?_, rfl⟩
  unfold print_stats_lines
  rw [hp]
  simp

theorem c4_print_stats_banners_witness :
    print_stats fsAllOk ["a.dcm", "b.dcm"] =
      Except.ok ((["a.dcm", "b.dcm"] : List String).map
        (fun f => "***** " ++ f ++ " *****" ++ "\n" ++ (dcmOf fsAllOk f).dump)) :=
  (c4_print_stats_banners fsAllOk ["a.dcm", "b.dcm"]
    (by simp) (fun f _ => ⟨dsPix, rfl⟩)).1

/-- C5: when every file decodes but none of the datasets exposes pixel
data, `display_images` raises `NoPixelDataError` with its fixed message and
renders nothing: the failure happens before any figure, subplot, or image
is created. -/
theorem c5_no_pixel_data (fs : String → Except String Dataset)
    (mc : Option Int) (files : List String)
    (hok : ∀ f ∈ files, ∃ d, fs f = Except.ok d ∧ d.pixel_array = none) :
    display_images fs files mc =
      Except.error
        (DisplayError.noPixelData "No DICOM files with pixel data found.")
    ∧ rendered_cells (display_images fs files mc) = [] := by
  have hok' : ∀ f ∈ files, ∃ d, fs f = Except.ok d := by
    intro f hf
    obtain ⟨d, hd, _⟩ := hok f hf
    exact ⟨d, hd⟩
  have hr := read_dicom_files_ok fs files hok'
  have hnone : ∀ f ∈ files, (dcmOf fs f).pixel_array = none := by
    intro f hf
    obtain ⟨d, hd, hp⟩ := hok f hf
    unfold dcmOf
    rw [hd]
    exact hp
  have hfilter : (files.zip (files.map (dcmOf fs))).filter
      (fun fd => fd.2.pixel_array.isSome) = [] := by
    rw [zip_self_map, List.filter_eq_nil_iff]
    intro a ha
    obtain ⟨f, hf, rfl⟩ := List.mem_map.mp ha
    simp [hnone f hf]
  have hd : display_images fs files mc =
      Except.error
        (DisplayError.noPixelData "No DICOM files with pixel data found.") := by
    unfold display_images load_dicom_files
    rw [hr]
    simp only [hfilter, List.isEmpty_nil, if_true]
  refine ⟨hd, ?_⟩
  unfold rendered_cells
  rw [hd]

theorem c5_no_pixel_data_witness :
    display_images fsNoPix ["a.dcm"] none =
      Except.error
        (DisplayError.noPixelData "No DICOM files with pixel data found.") :=
  (c5_no_pixel_data fsNoPix none ["a.dcm"]
    (fun _ _ => ⟨dsNoPix, rfl, rfl⟩)).1

/-- C9: with `SamplesPerPixel` equal to 1 or absent, a rank-1 or
rank-at-least-4 pixel array classifies as unsupported, and the display loop
logs a warning naming the unsupported shape in place of rendering the
cell. -/
theorem c9_unsupported_rank (dcm : Dataset) (pa : PixelArray)
    (h1 : dcm.SamplesPerPixel = none ∨ dcm.SamplesPerPixel = some 1)
    (h2 : pa.shape.length = 1 ∨ 4 ≤ pa.shape.length) :
    _get_image_type dcm pa = "unsupported"
    ∧ ∀ f, render_cell f dcm pa =
        CellRender.skipped
          (path_name f ++ " has unsupported dimensions: " ++
            shapeRepr pa.shape) := by
  have hspp : dcm.SamplesPerPixel.getD 1 = 1 := by
    rcases h1 with h | h <;> simp [h]
  have hne2 : pa.shape.length ≠ 2 := by rcases h2 with h | h <;> omega
  have hne3 : pa.shape.length ≠ 3 := by rcases h2 with h | h <;> omega
  have hu : _get_image_type dcm pa = "unsupported" := by
    unfold _get_image_type
    rw [hspp]
    simp [hne2, hne3]
  refine ⟨hu, ?_⟩
  intro f
  unfold render_cell
  rw [hu]
  simp

theorem c9_unsupported_rank_witness :
    render_cell "study/frame.dcm" ⟨some 1, none, none, ""⟩
        ⟨[10, 10, 256, 256]⟩ =
      CellRender.skipped
        (path_name "study/frame.dcm" ++ " has unsupported dimensions: " ++
          shapeRepr [10, 10, 256, 256]) :=
  (c9_unsupported_rank ⟨some 1, none, none, ""⟩ ⟨[10, 10, 256, 256]⟩
    (Or.inr rfl) (Or.inr (by decide))).2 "study/frame.dcm"

/-! ## Lemmas about the grid planner -/

lemma grid_cols_none (n : Nat) (hn : 0 < n) :
    grid_cols n none = max 1 ((Nat.sqrt n : Nat) : Int) := by
  have h1 : 1 ≤ Nat.sqrt n := Nat.sqrt_pos.mpr hn
  have h2 : Nat.sqrt n ≤ n := Nat.sqrt_le_self n
  show min (n : Int) ((Nat.sqrt n : Nat) : Int) = max 1 ((Nat.sqrt n : Nat) : Int)
  rw [min_eq_right (by exact_mod_cast h2)]
  rw [max_eq_right (by exact_mod_cast h1)]

lemma grid_cols_pos_some (n : Nat) (m : Int) (hn : 0 < n) (hm : 0 < m) :
    0 < grid_cols n (some m) := by
  unfold grid_cols grid_max_cols
  exact lt_min (by exact_mod_cast hn) hm

lemma grid_cols_pos_none (n : Nat) (hn : 0 < n) : 0 < grid_cols n none := by
  rw [grid_cols_none n hn]
  exact lt_of_lt_of_le zero_lt_one (le_max_left 1 _)

lemma grid_rows_bounds (n : Nat) (mc : Option Int) (hn : 0 < n)
    (hc : 0 < grid_cols n mc) :
    (grid_rows n mc - 1) * grid_cols n mc < (n : Int) ∧
    (n : Int) ≤ grid_rows n mc * grid_cols n mc := by
  obtain ⟨k, hk⟩ : ∃ k : Nat, grid_cols n mc = (k : Int) :=
    ⟨(grid_cols n mc).toNat, (Int.toNat_of_nonneg hc.le).symm⟩
  have hkpos : 0 < k := by
    rw [hk] at hc
    exact_mod_cast hc
  have hrw : grid_rows n mc = (((n - 1) / k + 1 : Nat) : Int) := by
    unfold grid_rows
    rw [hk]
    have h1 : (n : Int) - 1 = ((n - 1 : Nat) : Int) := by omega
    rw [h1, ← Int.ofNat_fdiv]
    push_cast
    ring
  have hq1 : (n - 1) / k * k < n :=
    lt_of_le_of_lt (Nat.div_mul_le_self (n - 1) k) (Nat.sub_lt hn Nat.one_pos)
  have hq2 : n ≤ ((n - 1) / k + 1) * k := by
    have h3 := Nat.succ_le_of_lt
      ((Nat.div_lt_iff_lt_mul hkpos).mp (Nat.lt_succ_self ((n - 1) / k)))
    rwa [Nat.succ_le_iff, Nat.lt_iff_add_one_le, Nat.sub_add_cancel hn] at h3
  rw [hrw, hk]
  constructor
  · have heq : ((((n - 1) / k + 1 : Nat) : Int) - 1) * (k : Int) =
        (((n - 1) / k * k : Nat) : Int) := by
      push_cast
      ring
    rw [heq]
    exact_mod_cast hq1
  · have heq : (((n - 1) / k + 1 : Nat) : Int) * (k : Int) =
        ((((n - 1) / k + 1) * k : Nat) : Int) := by
      push_cast
      ring
    rw [heq]
    exact_mod_cast hq2

lemma grid_rows_eq_ceil (n : Nat) (mc : Option Int) (hn : 0 < n)
    (hc : 0 < grid_cols n mc) :
    grid_rows n mc = ⌈(n : ℚ) / ((grid_cols n mc : Int) : ℚ)⌉ := by
  obtain ⟨h1, h2⟩ := grid_rows_bounds n mc hn hc
  have hcq : (0 : ℚ) < ((grid_cols n mc : Int) : ℚ) := by exact_mod_cast hc
  symm
  rw [Int.ceil_eq_iff]
  constructor
  · rw [lt_div_iff₀ hcq]
    exact_mod_cast h1
  · rw [div_le_iff₀ hcq]
    exact_mod_cast h2

/-- C2: the grid planner computes `cols = min(imageCount, maxColumnsHint)`
when the hint is given, `cols = max(1, floor(sqrt(imageCount)))` when it is
not (the code's `min(n, int(sqrt(n)))` coincides with it for positive
counts), and `rows = ceil(imageCount / cols)` in either case; and the
spec's three vectors hold. -/
theorem c2_grid_planner (n : Nat) (m : Int) (hn : 0 < n) (hm : 0 < m) :
    grid_cols n (some m) = min (n : Int) m
    ∧ grid_cols n none = max 1 ((Nat.sqrt n : Nat) : Int)
    ∧ grid_rows n (some m) = ⌈(n : ℚ) / ((grid_cols n (some m) : Int) : ℚ)⌉
    ∧ grid_rows n none = ⌈(n : ℚ) / ((grid_cols n none : Int) : ℚ)⌉
    ∧ grid_cols 4 none = 2 ∧ grid_rows 4 none = 2
    ∧ grid_cols 5 (some 2) = 2 ∧ grid_rows 5 (some 2) = 3
    ∧ grid_cols 1 none = 1 ∧ grid_rows 1 none = 1 := by
  have hs4 : Nat.sqrt 4 = 2 := by
    rw [show (4 : Nat) = 2 * 2 from rfl, Nat.sqrt_eq]
  have hs1 : Nat.sqrt 1 = 1 := by
    rw [show (1 : Nat) = 1 * 1 from rfl, Nat.sqrt_eq]
  refine ⟨rfl, grid_cols_none n hn,
    grid_rows_eq_ceil n (some m) hn (grid_cols_pos_some n m hn hm),
    grid_rows_eq_ceil n none hn (grid_cols_pos_none n hn),
    ?_, ?_, ?_, ?_, ?_, ?_⟩ <;>
    simp [grid_rows, grid_cols, grid_max_cols, int_sqrt, hs4, hs1]

theorem c2_grid_planner_witness :
    grid_rows 5 (some 2) = 3 :=
  (c2_grid_planner 5 2 (by decide) (by decide)).2.2.2.2.2.2.2.1

/-- C8 counterexample: at `imageCount = 1` with hint `2` the code computes
`cols = min(1, 2) = 1`, not the requested hint `2`, so the claimed invariant
clause "`cols` equals the requested hint when provided and positive" fails
on the code. -/
theorem c8_grid_invariant_counterexample :
    grid_cols 1 (some 2) = 1 ∧ grid_cols 1 (some 2) ≠ 2 := by decide

/-- C8 (amended): for every positive image count and provided positive
hint the computed grid satisfies `rows * cols >= imageCount` and
`cols <= max(1, imageCount)`, with `cols` equal to the smaller of the hint
and the image count when a positive hint is provided (else
`floor(sqrt(imageCount))`, minimum 1). -/
theorem c8_grid_invariant_amended (n : Nat) (m : Int) (hn : 0 < n)
    (hm : 0 < m) :
    (n : Int) ≤ grid_rows n (some m) * grid_cols n (some m)
    ∧ (n : Int) ≤ grid_rows n none * grid_cols n none
    ∧ grid_cols n (some m) ≤ max 1 (n : Int)
    ∧ grid_cols n none ≤ max 1 (n : Int)
    ∧ grid_cols n (some m) = min (n : Int) m
    ∧ grid_cols n none = max 1 ((Nat.sqrt n : Nat) : Int) := by
  refine ⟨(grid_rows_bounds n (some m) hn (grid_cols_pos_some n m hn hm)).2,
    (grid_rows_bounds n none hn (grid_cols_pos_none n hn)).2,
    ?_, ?_, rfl, grid_cols_none n hn⟩
  · unfold grid_cols
    exact le_trans (min_le_left _ _) (le_max_right _ _)
  · unfold grid_cols
    exact le_trans (min_le_left _ _) (le_max_right _ _)

theorem c8_grid_invariant_amended_witness :
    (5 : Int) ≤ grid_rows 5 (some 2) * grid_cols 5 (some 2) :=
  (c8_grid_invariant_amended 5 2 (by decide) (by decide)).1

/-- C10: an empty batch makes `print_stats` succeed with no output at all,
while `display_images` raises `NoPixelDataError` because its filtered set
is empty; neither operation attempts a single read. -/
theorem c10_empty_input (fs : String → Except String Dataset)
    (mc : Option Int) :
    print_stats fs [] = Except.ok []
    ∧ print_stats_lines fs [] = []
    ∧ display_images fs [] mc =
      Except.error
        (DisplayError.noPixelData "No DICOM files with pixel data found.")
    ∧ readsAttempted fs [] = [] :=
  ⟨rfl, rfl, rfl, rfl⟩

/-! ## The CLI (`cli.main`)

Argument parsing itself is the argparse collaborator; the embedding starts
from the parsed argument record.  `parser.error(msg)` is modelled as the
collaborator delivering `msg` on standard error and exiting with code 2. -/

/-- The parsed CLI arguments (`args` after `parser.parse_args()`). -/
structure Args where
  file : List String
  display : Bool
  columns : Option Int
  verbose : Bool
  quiet : Bool
deriving DecidableEq

/-- Embeds `args.columns is not None and args.columns < 1`. -/
def columns_invalid (args : Args) : Bool :=
  match args.columns with
  | some n => decide (n < 1)
  | none => false

/-- The observable outcome of one CLI invocation: process exit code, the
lines written to standard output and standard error, the warnings logged,
the file reads attempted (once per batch read performed), and the figure
shown, if any. -/
structure MainResult where
  exitCode : Nat
  stdout : List String
  stderr : List String
  warnings : List String
  reads : List String
  figure : Option FigureOut
deriving DecidableEq

/-- Modelled from the spec: the CLI's quiet path calls
`validate_files` from the core module, and the tests exercise that
function, but its definition is absent from the sources; per the spec's
words it "still validates readability": every file must be readable, the
loader's `DicomReadError` propagates unchanged, and nothing is printed. -/
def validate_files (fs : String → Except String Dataset)
    (files : List String) : Except String Unit :=
  match read_dicom_files fs files with
  | Except.error e => Except.error e
  | Except.ok _ => Except.ok ()

/-- Embeds `cli.main` after argument parsing: validate the columns value
(usage error only in display mode, warning otherwise), then run
`print_stats` (or, in quiet mode, `validate_files`) followed by
`display_images` when requested, turning a raised `DicomReadError` or
`NoPixelDataError` into `print(err)` plus exit code 1, and anything else
into exit code 0. -/
def cli_main (fs : String → Except String Dataset) (args : Args) :
    MainResult :=
  if columns_invalid args && args.display then
    ⟨2, [], ["--columns must be a positive integer"], [], [], none⟩
  else
    let ws : List String :=
      if columns_invalid args then
        ["--columns must be a positive integer. This only applies to the --display flag."]
      else []
    let metaStep : Except String (List String) :=
      if args.quiet then
        match validate_files fs args.file with
        | Except.error e => Except.error e
        | Except.ok _ => Except.ok []
      else print_stats fs args.file
    match metaStep with
    | Except.error e => ⟨1, [e], [], ws, readsAttempted fs args.file, none⟩
    | Except.ok lines =>
      if args.display then
        match display_images fs args.file args.columns with
        | Except.error de =>
          ⟨1, lines ++ [de.message], [], ws,
            readsAttempted fs args.file ++ readsAttempted fs args.file, none⟩
        | Except.ok fig =>
          ⟨0, lines, [], ws,
            readsAttempted fs args.file ++ readsAttempted fs args.file,
            some fig⟩
      else ⟨0, lines, [], ws, readsAttempted fs args.file, none⟩

/-- C7: a non-positive `--columns` value together with `-d` exits with code
2 and the exact message on standard error, before any file is read; without
`-d` it only logs a warning and the run proceeds exactly as it would have
with no columns value at all. -/
theorem c7_columns_validation (fs : String → Except String Dataset)
    (args : Args) (N : Int) (hc : args.columns = some N) (hN : N ≤ 0) :
    (args.display = true →
      cli_main fs args =
        ⟨2, [], ["--columns must be a positive integer"], [], [], none⟩)
    ∧ (args.display = false →
      (cli_main fs args).exitCode =
          (cli_main fs { args with columns := none }).exitCode
      ∧ (cli_main fs args).stdout =
          (cli_main fs { args with columns := none }).stdout
      ∧ (cli_main fs args).reads =
          (cli_main fs { args with columns := none }).reads
      ∧ (cli_main fs args).figure =
          (cli_main fs { args with columns := none }).figure
      ∧ (cli_main fs args).warnings =
          ["--columns must be a positive integer. This only applies to the --display flag."]) := by
  obtain ⟨file, disp, cols, verb, quiet⟩ := args
  simp only at hc
  subst hc
  have hci : columns_invalid ⟨file, disp, some N, verb, quiet⟩ = true := by
    unfold columns_invalid
    simp only
    rw [decide_eq_true_iff]
    omega
  constructor
  · intro hd
    simp only at hd
    subst hd
    unfold cli_main
    rw [hci]
    rfl
  · intro hd
    simp only at hd
    subst hd
    unfold cli_main
    rw [hci]
    simp only [Bool.and_false, Bool.false_and, if_neg Bool.false_ne_true,
      columns_invalid, if_true]
    cases hms : (if quiet then
        match validate_files fs file with
        | Except.error e => Except.error e
        | Except.ok _ => Except.ok ([] : List String)
      else print_stats fs file) with
    | error e => simp
    | ok lines => simp

theorem c7_columns_validation_witness :
    cli_main fsAllOk ⟨["a.dcm"], true, some 0, false, false⟩ =
      ⟨2, [], ["--columns must be a positive integer"], [], [], none⟩ :=
  (c7_columns_validation fsAllOk ⟨["a.dcm"], true, some 0, false, false⟩ 0
    rfl (by decide)).1 rfl

/-- C6 counterexample: a quiet invocation with display mode on a file that
decodes successfully but has no pixel data does not complete successfully
and does not keep standard output empty: it prints the
`NoPixelDataError` message and exits with code 1, refuting the claim's
universal success for quiet invocations over decodable files. -/
theorem c6_quiet_counterexample :
    fsNoPix "scan.dcm" = Except.ok dsNoPix
    ∧ (cli_main fsNoPix ⟨["scan.dcm"], true, none, false, true⟩).exitCode = 1
    ∧ (cli_main fsNoPix ⟨["scan.dcm"], true, none, false, true⟩).stdout =
        ["No DICOM files with pixel data found."] :=
  ⟨rfl, rfl, rfl⟩

/-- C6 (amended): for every quiet invocation without display mode whose
files all decode, the CLI prints nothing to standard output, still reads
(validates) every file, and exits with code 0; and a quiet invocation
without display mode containing an unreadable file exits with code 1
printing the `DicomReadError` message. -/
theorem c6_quiet_amended (fs : String → Except String Dataset) (args : Args)
    (hq : args.quiet = true) (hd : args.display = false) :
    ((∀ f ∈ args.file, ∃ d, fs f = Except.ok d) →
      (cli_main fs args).exitCode = 0
      ∧ (cli_main fs args).stdout = []
      ∧ (cli_main fs args).reads = args.file)
    ∧ ((∃ f ∈ args.file, ∃ e, fs f = Except.error e) →
      (cli_main fs args).exitCode = 1
      ∧ ∃ m, (cli_main fs args).stdout =
          ["Files could not be read due to " ++ m]) := by
  obtain ⟨file, disp, cols, verb, quiet⟩ := args
  simp only at hq hd
  subst hq
  subst hd
  constructor
  · intro hok
    have hv : validate_files fs file = Except.ok () := by
      unfold validate_files
      rw [read_dicom_files_ok fs file hok]
    have hreads := readsAttempted_ok fs file hok
    unfold cli_main
    simp only [Bool.and_false, if_neg Bool.false_ne_true, if_true, hv, hreads]
    exact ⟨trivial, trivial, trivial⟩
  · intro hex
    obtain ⟨e, he⟩ := dcmread_all_err_of_mem fs file hex
    have hrd : read_dicom_files fs file =
        Except.error ("Files could not be read due to " ++ e) := by
      unfold read_dicom_files
      rw [he]
    have hv : validate_files fs file =
        Except.error ("Files could not be read due to " ++ e) := by
      unfold validate_files
      rw [hrd]
    unfold cli_main
    simp only [Bool.and_false, if_neg Bool.false_ne_true, if_true, hv]
    exact ⟨trivial, e, rfl⟩

theorem c6_quiet_amended_witness :
    (cli_main fsAllOk ⟨["a.dcm"], false, none, false, true⟩).exitCode = 0
    ∧ (cli_main fsOneBad ⟨["bad.dcm"], false, none, false, true⟩).exitCode = 1 :=
  ⟨((c6_quiet_amended fsAllOk ⟨["a.dcm"], false, none, false, true⟩ rfl rfl).1
      (fun _ _ => ⟨dsPix, rfl⟩)).1,
    ((c6_quiet_amended fsOneBad ⟨["bad.dcm"], false, none, false, true⟩ rfl
        rfl).2
      ⟨"bad.dcm", by simp, "No such file", by simp [fsOneBad]⟩).1⟩

end DicomInfo
